import Mathlib

/-!
# Verification of the a2a_protocol task models

Shallow embedding of `a2a_multiagent/models/task.py`: pydantic model
construction is modelled as validation of a keyword-argument dictionary of
dynamic values (`PyValue`), returning `Except ValidationError record`.
The two default factories (`datetime.now` for `TaskStatus.timestamp` and
`uuid4().hex` for `TaskSendParams.sessionId`) are modelled by passing the
factory's produced value as an explicit argument to the validator, since
those values come from the runtime environment, not from the module.
-/

namespace A2A

/-- A dynamic (Python-level) value handed to a model constructor.
Dictionary keys are strings, matching keyword arguments and
`dict[str, Any]` payloads. `datetime` carries an abstract clock reading. -/
inductive PyValue where
  | none
  | str (s : String)
  | int (n : Int)
  | datetime (t : Nat)
  | list (items : List PyValue)
  | dict (fields : List (String × PyValue))

/-- pydantic's `ValidationError`, reduced to the failing location and message. -/
structure ValidationError where
  loc : String
  msg : String
deriving DecidableEq, Repr

/-- Look up a keyword argument / dictionary entry by name. -/
def getField (fields : List (String × PyValue)) (name : String) : Option PyValue :=
  (fields.find? (fun kv => kv.fst == name)).map (·.snd)

/-- Validation of a `str`-annotated field: only strings are accepted. -/
def validateStr (loc : String) : PyValue → Except ValidationError String
  | .str s => .ok s
  | _ => .error ⟨loc, "Input should be a valid string"⟩

/-- Validation of a `Literal[...]`-annotated field: the value must be one of
the permitted string literals. -/
def validateLiteral (loc : String) (allowed : List String) :
    PyValue → Except ValidationError String
  | v => match v with
    | .str s =>
        if allowed.contains s then .ok s
        else .error ⟨loc, "Input should be a permitted literal"⟩
    | _ => .error ⟨loc, "Input should be a permitted literal"⟩

/-- Whether a value is a Python string. -/
def PyValue.isStr : PyValue → Bool
  | .str _ => true
  | _ => false

/-- Whether a value is a Python integer. -/
def PyValue.isInt : PyValue → Bool
  | .int _ => true
  | _ => false

/-- Whether a value is Python's `None`. -/
def PyValue.isNone : PyValue → Bool
  | .none => true
  | _ => false

/-- Whether an `Except` result is a validation failure. -/
def isErr {ε α : Type} : Except ε α → Bool
  | .error _ => true
  | .ok _ => false

/-- Whether an `Except` result is a successful construction. -/
def isOk {ε α : Type} : Except ε α → Bool
  | .error _ => false
  | .ok _ => true

/-! ## TextPart

```python
class TextPart(BaseModel):
    type: Literal["text"] = "text"
    text: str
``` -/

structure TextPart where
  type : String
  text : String
deriving DecidableEq, Repr

/-- Construction of a `TextPart` from keyword arguments. The `type` field
defaults to `"text"` and, when given, must equal the literal `"text"`;
`text` is a required string. -/
def TextPart.validate (fields : List (String × PyValue)) :
    Except ValidationError TextPart := do
  let ty ← match getField fields "type" with
    | Option.none => Except.ok "text"
    | Option.some v => validateLiteral "type" ["text"] v
  let tx ← match getField fields "text" with
    | Option.none => Except.error ⟨"text", "Field required"⟩
    | Option.some v => validateStr "text" v
  Except.ok ⟨ty, tx⟩

/-! ## Message

```python
Part = TextPart

class Message(BaseModel):
    role: Literal["user", "agent"]
    parts: List[Part]
``` -/

structure Message where
  role : String
  parts : List TextPart
deriving DecidableEq, Repr

/-- A list element of `parts` is coerced into a `Part` (today `TextPart`):
a field dictionary (or model instance, which pydantic treats structurally)
is validated; any other value is rejected. -/
def validatePart : PyValue → Except ValidationError TextPart
  | .dict fs => TextPart.validate fs
  | _ => .error ⟨"parts", "Input should be a valid dictionary or instance of TextPart"⟩

/-- Validation of the `parts` list, element by element. -/
def validateParts : List PyValue → Except ValidationError (List TextPart)
  | [] => .ok []
  | v :: rest => do
      let p ← validatePart v
      let ps ← validateParts rest
      Except.ok (p :: ps)

/-- Construction of a `Message` from keyword arguments: `role` must be one
of the literals `"user"`/`"agent"`, `parts` must be a list of valid Parts. -/
def Message.validate (fields : List (String × PyValue)) :
    Except ValidationError Message := do
  let role ← match getField fields "role" with
    | Option.none => Except.error ⟨"role", "Field required"⟩
    | Option.some v => validateLiteral "role" ["user", "agent"] v
  let parts ← match getField fields "parts" with
    | Option.none => Except.error ⟨"parts", "Field required"⟩
    | Option.some (.list items) => validateParts items
    | Option.some _ => Except.error ⟨"parts", "Input should be a valid list"⟩
  Except.ok ⟨role, parts⟩

/-! ## TaskStatus

```python
class TaskStatus(BaseModel):
    state: str
    timestamp: datetime = Field(default_factory=datetime.now)
``` -/

structure TaskStatus where
  state : String
  timestamp : Nat
deriving DecidableEq, Repr

/-- Construction of a `TaskStatus` from keyword arguments. `state` is a
required string with no membership check against `TaskState`. `now` is the
value `datetime.now` returns when the `timestamp` default factory fires,
i.e. when the field is omitted; an explicit `timestamp` must be a datetime
(the lax string-to-datetime coercion is not exercised by this module). -/
def TaskStatus.validate (now : Nat) (fields : List (String × PyValue)) :
    Except ValidationError TaskStatus := do
  let st ← match getField fields "state" with
    | Option.none => Except.error ⟨"state", "Field required"⟩
    | Option.some v => validateStr "state" v
  let ts ← match getField fields "timestamp" with
    | Option.none => Except.ok now
    | Option.some (.datetime t) => Except.ok t
    | Option.some _ => Except.error ⟨"timestamp", "Input should be a valid datetime"⟩
  Except.ok ⟨st, ts⟩

/-! ## Task

```python
class Task(BaseModel):
    id: str
    status: TaskStatus
    history: List[Message]
``` -/

structure Task where
  id : String
  status : TaskStatus
  history : List Message
deriving DecidableEq, Repr

/-- Validation of the `history` list, element by element. -/
def validateMessages : List PyValue → Except ValidationError (List Message)
  | [] => .ok []
  | v :: rest => do
      let m ← match v with
        | .dict fs => Message.validate fs
        | _ => Except.error ⟨"history", "Input should be a valid dictionary or instance of Message"⟩
      let ms ← validateMessages rest
      Except.ok (m :: ms)

/-- Construction of a `Task` from keyword arguments: required string `id`,
required `status` record, required list of `Message` records. `now` feeds
the nested `TaskStatus` timestamp default. -/
def Task.validate (now : Nat) (fields : List (String × PyValue)) :
    Except ValidationError Task := do
  let i ← match getField fields "id" with
    | Option.none => Except.error ⟨"id", "Field required"⟩
    | Option.some v => validateStr "id" v
  let st ← match getField fields "status" with
    | Option.none => Except.error ⟨"status", "Field required"⟩
    | Option.some (.dict fs) => TaskStatus.validate now fs
    | Option.some _ => Except.error ⟨"status", "Input should be a valid dictionary or instance of TaskStatus"⟩
  let h ← match getField fields "history" with
    | Option.none => Except.error ⟨"history", "Field required"⟩
    | Option.some (.list items) => validateMessages items
    | Option.some _ => Except.error ⟨"history", "Input should be a valid list"⟩
  Except.ok ⟨i, st, h⟩

/-! ## Structural serialization (pydantic `model_dump`)

Each record serializes to the dictionary of its fields, nested records to
nested dictionaries, in declaration order. -/

/-- Structural dump of a `TextPart`. -/
def TextPart.dump (p : TextPart) : PyValue :=
  .dict [("type", .str p.type), ("text", .str p.text)]

/-- Structural dump of a `Message`. -/
def Message.dump (m : Message) : PyValue :=
  .dict [("role", .str m.role), ("parts", .list (m.parts.map TextPart.dump))]

/-- Structural dump of a `TaskStatus`. -/
def TaskStatus.dump (s : TaskStatus) : PyValue :=
  .dict [("state", .str s.state), ("timestamp", .datetime s.timestamp)]

/-- Structural dump of a `Task`, as the field dictionary handed back to
`Task.validate` for the round trip. -/
def Task.dumpFields (t : Task) : List (String × PyValue) :=
  [("id", .str t.id), ("status", t.status.dump),
   ("history", .list (t.history.map Message.dump))]

/-- A `TextPart` value as produced by successful validation: the
discriminator holds the literal `"text"`. -/
def TextPart.Valid (p : TextPart) : Prop := p.type = "text"

/-- A `Message` value as produced by successful validation: role is one of
the two permitted literals and every part is valid. -/
def Message.Valid (m : Message) : Prop :=
  (m.role = "user" ∨ m.role = "agent") ∧ ∀ p ∈ m.parts, p.Valid

/-- A `Task` value as produced by successful validation. -/
def Task.Valid (t : Task) : Prop := ∀ m ∈ t.history, m.Valid

instance (p : TextPart) : Decidable p.Valid := by unfold TextPart.Valid; infer_instance

instance (m : Message) : Decidable m.Valid := by unfold Message.Valid; infer_instance

instance (t : Task) : Decidable t.Valid := by unfold Task.Valid; infer_instance

/-! ## Parameter models

```python
class TaskIdParams(BaseModel):
    id: str
    metadata: dict[str, Any] | None = None

class TaskQueryParams(TaskIdParams):
    historyLength: int | None = None

class TaskSendParams(BaseModel):
    id: str
    sessionId: str = Field(default_factory=lambda: uuid4().hex)
    message: Message
    historyLength: int | None = None
    metadata: dict[str, Any] | None = None
``` -/

structure TaskIdParams where
  id : String
  metadata : Option (List (String × PyValue))

structure TaskQueryParams where
  id : String
  metadata : Option (List (String × PyValue))
  historyLength : Option Int

structure TaskSendParams where
  id : String
  sessionId : String
  message : Message
  historyLength : Option Int
  metadata : Option (List (String × PyValue))

/-- Validation of a `dict[str, Any] | None` field. -/
def validateOptDict (loc : String) :
    PyValue → Except ValidationError (Option (List (String × PyValue)))
  | .none => .ok Option.none
  | .dict fs => .ok (Option.some fs)
  | _ => .error ⟨loc, "Input should be a valid dictionary"⟩

/-- One step of the decimal accumulator for lax string-to-int coercion:
a digit extends the value, anything else poisons the parse. -/
def digitStep (acc : Option Nat) (c : Char) : Option Nat :=
  match acc with
  | Option.none => Option.none
  | Option.some n =>
      if c.isDigit then Option.some (n * 10 + (c.toNat - '0'.toNat)) else Option.none

/-- Decimal value of a non-empty all-digit character list, `Option.none`
otherwise. -/
def parseDigits (cs : List Char) : Option Nat :=
  if cs.isEmpty then Option.none else cs.foldl digitStep (Option.some 0)

/-- pydantic's lax coercion of a string to an integer: an optional sign
followed by one or more decimal digits. Version-specific edge grammar
(surrounding whitespace, underscore separators, integral float strings)
is not modelled; no theorem asserts anything about such inputs. -/
def parseIntStr (s : String) : Option Int :=
  match s.data with
  | [] => Option.none
  | c :: rest =>
      if c = '-' then (parseDigits rest).map (fun n => -(n : Int))
      else if c = '+' then (parseDigits rest).map (fun n => (n : Int))
      else (parseDigits (c :: rest)).map (fun n => (n : Int))

/-- Validation of an `int | None` field. In lax mode pydantic also accepts
integer-formatted strings, coercing them to their integer value. -/
def validateOptInt (loc : String) : PyValue → Except ValidationError (Option Int)
  | .none => .ok Option.none
  | .int n => .ok (Option.some n)
  | .str s =>
      match parseIntStr s with
      | Option.some n => .ok (Option.some n)
      | Option.none => .error ⟨loc, "Input should be a valid integer"⟩
  | _ => .error ⟨loc, "Input should be a valid integer"⟩

/-- Construction of `TaskIdParams` from keyword arguments. -/
def TaskIdParams.validate (fields : List (String × PyValue)) :
    Except ValidationError TaskIdParams := do
  let i ← match getField fields "id" with
    | Option.none => Except.error ⟨"id", "Field required"⟩
    | Option.some v => validateStr "id" v
  let md ← match getField fields "metadata" with
    | Option.none => Except.ok Option.none
    | Option.some v => validateOptDict "metadata" v
  Except.ok ⟨i, md⟩

/-- Construction of `TaskQueryParams` from keyword arguments: the inherited
`id` and `metadata` fields plus the optional integer `historyLength`. -/
def TaskQueryParams.validate (fields : List (String × PyValue)) :
    Except ValidationError TaskQueryParams := do
  let i ← match getField fields "id" with
    | Option.none => Except.error ⟨"id", "Field required"⟩
    | Option.some v => validateStr "id" v
  let md ← match getField fields "metadata" with
    | Option.none => Except.ok Option.none
    | Option.some v => validateOptDict "metadata" v
  let hl ← match getField fields "historyLength" with
    | Option.none => Except.ok Option.none
    | Option.some v => validateOptInt "historyLength" v
  Except.ok ⟨i, md, hl⟩

/-! ### uuid4().hex -/

/-- One lowercase hexadecimal digit. -/
def hexDigit : Nat → Char
  | 0 => '0' | 1 => '1' | 2 => '2' | 3 => '3'
  | 4 => '4' | 5 => '5' | 6 => '6' | 7 => '7'
  | 8 => '8' | 9 => '9' | 10 => 'a' | 11 => 'b'
  | 12 => 'c' | 13 => 'd' | 14 => 'e' | _ => 'f'

/-- The lowercase hexadecimal alphabet. -/
def hexChars : List Char := "0123456789abcdef".toList

/-- The `k` low-order hex digits of `v`, most significant first
(zero-padded positional encoding). -/
def hexNibbles : Nat → Nat → List Char
  | 0, _ => []
  | k + 1, v => hexNibbles k (v / 16) ++ [hexDigit (v % 16)]

/-- `UUID.hex` for a 128-bit UUID integer value: 32 lowercase hex digits,
zero-padded. -/
def uuidHex (v : Nat) : String := ⟨hexNibbles 32 v⟩

/-- Construction of `TaskSendParams` from keyword arguments. `uuidVal` is
the 128-bit integer value of the `uuid4()` the default factory draws when
`sessionId` is omitted; `hexVal := uuidHex uuidVal` is then `uuid4().hex`. -/
def TaskSendParams.validate (uuidVal : Nat) (fields : List (String × PyValue)) :
    Except ValidationError TaskSendParams := do
  let i ← match getField fields "id" with
    | Option.none => Except.error ⟨"id", "Field required"⟩
    | Option.some v => validateStr "id" v
  let sid ← match getField fields "sessionId" with
    | Option.none => Except.ok (uuidHex uuidVal)
    | Option.some v => validateStr "sessionId" v
  let msg ← match getField fields "message" with
    | Option.none => Except.error ⟨"message", "Field required"⟩
    | Option.some (.dict fs) => Message.validate fs
    | Option.some _ => Except.error ⟨"message", "Input should be a valid dictionary or instance of Message"⟩
  let hl ← match getField fields "historyLength" with
    | Option.none => Except.ok Option.none
    | Option.some v => validateOptInt "historyLength" v
  let md ← match getField fields "metadata" with
    | Option.none => Except.ok Option.none
    | Option.some v => validateOptDict "metadata" v
  Except.ok ⟨i, sid, msg, hl, md⟩

/-! ## TaskState

```python
class TaskState(str, Enum):
    SUBMITTED = "submitted"
    WORKING = "working"
    INPUT_REQUIRED = "input-required"
    COMPLETED = "completed"
    CANCELED = "canceled"
    FAILED = "failed"
    UNKNOWN = "unknown"
``` -/

inductive TaskState where
  | SUBMITTED | WORKING | INPUT_REQUIRED | COMPLETED | CANCELED | FAILED | UNKNOWN
deriving DecidableEq, Repr

/-- The string value of each `TaskState` member. -/
def TaskState.value : TaskState → String
  | .SUBMITTED => "submitted"
  | .WORKING => "working"
  | .INPUT_REQUIRED => "input-required"
  | .COMPLETED => "completed"
  | .CANCELED => "canceled"
  | .FAILED => "failed"
  | .UNKNOWN => "unknown"

/-- The members of the `TaskState` enumeration, in declaration order. -/
def TaskState.members : List TaskState :=
  [.SUBMITTED, .WORKING, .INPUT_REQUIRED, .COMPLETED, .CANCELED, .FAILED, .UNKNOWN]

/-! ## Decoding helpers for the hex encoding, and the construction-time clock -/

/-- The numeric value of a lowercase hex digit (inverse of `hexDigit`). -/
def decodeHexChar : Char → Nat
  | '0' => 0 | '1' => 1 | '2' => 2 | '3' => 3 | '4' => 4 | '5' => 5 | '6' => 6 | '7' => 7
  | '8' => 8 | '9' => 9 | 'a' => 10 | 'b' => 11 | 'c' => 12 | 'd' => 13 | 'e' => 14 | _ => 15

/-- The value of a big-endian list of hex digits. -/
def decodeHex : List Char → Nat
  | [] => 0
  | c :: cs => decodeHexChar c * 16 ^ cs.length + decodeHex cs

/-- One `TaskStatus` construction event on the wall clock: the clock reading
when the constructor is entered, the value `datetime.now` returns for the
omitted `timestamp`, and the clock reading when the constructor returns. -/
structure ConstructionWindow where
  enter : Nat
  nowRead : Nat
  finish : Nat

/-- `datetime.now` is read during the constructor call, so its value lies
between the entry and return readings of the same wall clock. -/
def ConstructionWindow.WellFormed (w : ConstructionWindow) : Prop :=
  w.enter ≤ w.nowRead ∧ w.nowRead ≤ w.finish

/-! ## Helper lemmas -/

theorem exceptBind_ok {ε α β : Type} (a : α) (f : α → Except ε β) :
    (Except.ok a : Except ε α) >>= f = f a := rfl

theorem exceptBind_err {ε α β : Type} (e : ε) (f : α → Except ε β) :
    (Except.error e : Except ε α) >>= f = Except.error e := rfl

theorem bindEq_ok {ε α β : Type} {a : Except ε α} {f : α → Except ε β} {b : β}
    (h : a >>= f = Except.ok b) : ∃ x, a = Except.ok x ∧ f x = Except.ok b := by
  cases a with
  | error e => simp [exceptBind_err] at h
  | ok x => exact ⟨x, rfl, h⟩

/-! ## Claim theorems -/

/-- C5: For every string `s`, `TextPart(text=s)` construction succeeds and
the resulting record's `type` discriminator equals `"text"`. -/
theorem textPart_construction_succeeds (s : String) :
    TextPart.validate [("text", PyValue.str s)] = .ok ⟨"text", s⟩ := rfl

/-- C10: Constructing a `TextPart` with an explicit `type` discriminator
other than the literal `"text"` fails with `ValidationError`. -/
theorem textPart_type_literal_rejected (ty tx : String) (h : ty ≠ "text") :
    isErr (TextPart.validate [("type", PyValue.str ty), ("text", PyValue.str tx)]) = true := by
  unfold TextPart.validate validateLiteral
  simp [getField, List.find?, List.contains, h, exceptBind_err, isErr]

/-- Witness for C10: `TextPart(type="image", text="x")` fails construction. -/
theorem textPart_type_literal_rejected_witness :
    isErr (TextPart.validate [("type", PyValue.str "image"), ("text", PyValue.str "x")]) = true :=
  textPart_type_literal_rejected "image" "x" (by decide)

/-- C6: `TaskState` is a closed enumeration whose members' string values are
exactly the seven literals `submitted`, `working`, `input-required`,
`completed`, `canceled`, `failed`, `unknown`, and no others. -/
theorem taskState_members_exact :
    TaskState.members.map TaskState.value =
      ["submitted", "working", "input-required", "completed", "canceled", "failed", "unknown"]
    ∧ (∀ t : TaskState, t ∈ TaskState.members)
    ∧ (∀ s : String, (∃ t : TaskState, TaskState.value t = s) ↔
        s ∈ ["submitted", "working", "input-required", "completed", "canceled", "failed", "unknown"]) := by
  refine ⟨rfl, ?_, ?_⟩
  · intro t; cases t <;> simp [TaskState.members]
  · intro s
    constructor
    · rintro ⟨t, rfl⟩
      cases t <;> simp [TaskState.value]
    · intro hs
      simp only [List.mem_cons, List.not_mem_nil, or_false] at hs
      rcases hs with rfl | rfl | rfl | rfl | rfl | rfl | rfl
      exacts [⟨.SUBMITTED, rfl⟩, ⟨.WORKING, rfl⟩, ⟨.INPUT_REQUIRED, rfl⟩, ⟨.COMPLETED, rfl⟩,
        ⟨.CANCELED, rfl⟩, ⟨.FAILED, rfl⟩, ⟨.UNKNOWN, rfl⟩]

/-- C2: `TaskStatus(state=s)` construction succeeds for every string `s`
(no check against the `TaskState` enumeration) with the omitted timestamp
auto-populated from the construction-time clock, and fails with
`ValidationError` when `state` is not a string. -/
theorem taskStatus_state_untyped (now : Nat) :
    (∀ s : String, TaskStatus.validate now [("state", PyValue.str s)] = .ok ⟨s, now⟩)
    ∧ (∀ v : PyValue, v.isStr = false →
        isErr (TaskStatus.validate now [("state", v)]) = true) := by
  refine ⟨fun s => rfl, fun v h => ?_⟩
  cases v with
  | str s => simp [PyValue.isStr] at h
  | none => rfl
  | int n => rfl
  | datetime t => rfl
  | list l => rfl
  | dict f => rfl

/-- Witness for C2: `TaskStatus(state="whatever")` succeeds — even though
`"whatever"` is no `TaskState` value — and `TaskStatus(state=3)` fails. -/
theorem taskStatus_state_untyped_witness :
    TaskStatus.validate 7 [("state", PyValue.str "whatever")] = .ok ⟨"whatever", 7⟩
    ∧ isErr (TaskStatus.validate 7 [("state", PyValue.int 3)]) = true :=
  ⟨(taskStatus_state_untyped 7).1 "whatever", (taskStatus_state_untyped 7).2 (PyValue.int 3) rfl⟩

theorem foldl_digitStep_none (cs : List Char) :
    cs.foldl digitStep Option.none = Option.none := by
  induction cs with
  | nil => rfl
  | cons c rest ih => rw [List.foldl_cons]; exact ih

/-- A character list with no digit at all never parses as a number. -/
theorem parseDigits_none (cs : List Char) (h : ∀ c ∈ cs, c.isDigit = false) :
    parseDigits cs = Option.none := by
  cases cs with
  | nil => rfl
  | cons c rest =>
      have hc : c.isDigit = false := h c (List.mem_cons_self c rest)
      unfold parseDigits
      rw [if_neg (by simp), List.foldl_cons]
      have hstep : digitStep (Option.some 0) c = Option.none := by
        simp [digitStep, hc]
      rw [hstep]
      exact foldl_digitStep_none rest

/-- A string with no digit at all (such as `"five"`) is not laxly coerced
to an integer by any pydantic version. -/
theorem parseIntStr_none (s : String) (h : ∀ c ∈ s.data, c.isDigit = false) :
    parseIntStr s = Option.none := by
  unfold parseIntStr
  cases hd : s.data with
  | nil => rfl
  | cons c rest =>
      rw [hd] at h
      have hrest : ∀ x ∈ rest, x.isDigit = false :=
        fun x hx => h x (List.mem_cons_of_mem c hx)
      dsimp only
      by_cases h1 : c = '-'
      · rw [if_pos h1, parseDigits_none rest hrest]
        rfl
      · rw [if_neg h1]
        by_cases h2 : c = '+'
        · rw [if_pos h2, parseDigits_none rest hrest]
          rfl
        · rw [if_neg h2, parseDigits_none (c :: rest) h]
          rfl

theorem validateOptInt_coerce (loc s : String) (n : Int)
    (hp : parseIntStr s = Option.some n) :
    validateOptInt loc (PyValue.str s) = Except.ok (Option.some n) := by
  unfold validateOptInt
  dsimp only
  rw [hp]

theorem validateOptInt_str_err (loc s : String) (hp : parseIntStr s = Option.none) :
    validateOptInt loc (PyValue.str s) =
      Except.error ⟨loc, "Input should be a valid integer"⟩ := by
  unfold validateOptInt
  dsimp only
  rw [hp]

/-- Counterexample to C3 as stated: `"5"` is not an integer, yet
`TaskQueryParams(id="t1", historyLength="5")` succeeds — pydantic's lax
mode coerces the integer-formatted string to `5`. -/
theorem taskQueryParams_lax_coercion_counterexample :
    (PyValue.str "5").isInt = false
    ∧ TaskQueryParams.validate
        [("id", PyValue.str "t1"), ("historyLength", PyValue.str "5")] =
      .ok ⟨"t1", Option.none, Option.some 5⟩ :=
  ⟨rfl, rfl⟩

/-- C3 (amended): `historyLength` must be an integer, absent, or an
integer-formatted string: `TaskQueryParams(id="t1", historyLength="five")`
fails, any integer or omission succeeds, an integer-formatted string is
laxly coerced to its integer value, a string with no digit fails, and any
value that is neither an integer, `None`, nor a string fails. -/
theorem taskQueryParams_historyLength_amended :
    isErr (TaskQueryParams.validate
      [("id", PyValue.str "t1"), ("historyLength", PyValue.str "five")]) = true
    ∧ (∀ (i : String) (n : Int), TaskQueryParams.validate
        [("id", PyValue.str i), ("historyLength", PyValue.int n)] =
        .ok ⟨i, Option.none, Option.some n⟩)
    ∧ (∀ i : String, TaskQueryParams.validate [("id", PyValue.str i)] =
        .ok ⟨i, Option.none, Option.none⟩)
    ∧ (∀ (i s : String) (n : Int), parseIntStr s = Option.some n →
        TaskQueryParams.validate
          [("id", PyValue.str i), ("historyLength", PyValue.str s)] =
        .ok ⟨i, Option.none, Option.some n⟩)
    ∧ (∀ i s : String, (∀ c ∈ s.data, c.isDigit = false) →
        isErr (TaskQueryParams.validate
          [("id", PyValue.str i), ("historyLength", PyValue.str s)]) = true)
    ∧ (∀ (i : String) (v : PyValue), v.isInt = false → v.isNone = false →
        v.isStr = false →
        isErr (TaskQueryParams.validate
          [("id", PyValue.str i), ("historyLength", v)]) = true) := by
  refine ⟨rfl, fun i n => rfl, fun i => rfl, ?_, ?_, ?_⟩
  · intro i s n hp
    have key : TaskQueryParams.validate
        [("id", PyValue.str i), ("historyLength", PyValue.str s)] =
        validateOptInt "historyLength" (PyValue.str s) >>=
          (fun hl => Except.ok ⟨i, Option.none, hl⟩) := rfl
    rw [key, validateOptInt_coerce _ _ _ hp, exceptBind_ok]
  · intro i s hnd
    have key : TaskQueryParams.validate
        [("id", PyValue.str i), ("historyLength", PyValue.str s)] =
        validateOptInt "historyLength" (PyValue.str s) >>=
          (fun hl => Except.ok ⟨i, Option.none, hl⟩) := rfl
    rw [key, validateOptInt_str_err _ _ (parseIntStr_none s hnd), exceptBind_err]
    rfl
  · intro i v h1 h2 h3
    cases v with
    | int n => simp [PyValue.isInt] at h1
    | none => simp [PyValue.isNone] at h2
    | str s => simp [PyValue.isStr] at h3
    | datetime t => rfl
    | list l => rfl
    | dict f => rfl

theorem isOk_eq_not_isErr {ε α : Type} (e : Except ε α) : isOk e = !isErr e := by
  cases e <;> rfl

/-- `parts` validation fails exactly when some element fails Part validation. -/
theorem validateParts_err_iff (ps : List PyValue) :
    isErr (validateParts ps) = ps.any (fun v => isErr (validatePart v)) := by
  induction ps with
  | nil => rfl
  | cons v rest ih =>
      cases hpv : validatePart v with
      | error e => simp [validateParts, hpv, exceptBind_err, isErr, List.any_cons]
      | ok p =>
          have hv : isErr (validatePart v) = false := by rw [hpv]; rfl
          simp only [validateParts, hpv, exceptBind_ok, List.any_cons, hv, Bool.false_or]
          cases hr : validateParts rest with
          | error e =>
              rw [hr] at ih
              simp only [exceptBind_err, isErr] at ih ⊢
              exact ih
          | ok l =>
              rw [hr] at ih
              simp only [exceptBind_ok, isErr] at ih ⊢
              exact ih

/-- Evaluation of `Message.validate` on the two keyword arguments. -/
theorem message_validate_eq (r : String) (ps : List PyValue) :
    Message.validate [("role", PyValue.str r), ("parts", PyValue.list ps)] =
      if ["user", "agent"].contains r then
        (validateParts ps).map (fun l => ⟨r, l⟩)
      else .error ⟨"role", "Input should be a permitted literal"⟩ := by
  have hgf : getField [("role", PyValue.str r), ("parts", PyValue.list ps)] "parts" =
      Option.some (PyValue.list ps) := rfl
  unfold Message.validate validateLiteral
  show (if ["user", "agent"].contains r then Except.ok r else _) >>= _ = _
  split
  · rw [exceptBind_ok, hgf]
    cases hr : validateParts ps with
    | error e => simp [hr, exceptBind_err, Except.map]
    | ok l => simp [hr, exceptBind_ok, Except.map]
  · rfl

/-- C1: `Message` construction fails with `ValidationError` when `role` is
not in `{"user", "agent"}` or when `parts` contains an element that is not
a valid Part; in particular `Message(role="system", parts=[])` fails; and
for any permitted role with a list of valid Parts (including the empty
list) construction succeeds. -/
theorem message_construction_validation :
    (∀ (r : String) (ps : List PyValue), r ∉ (["user", "agent"] : List String) →
      isErr (Message.validate [("role", PyValue.str r), ("parts", PyValue.list ps)]) = true)
    ∧ isErr (Message.validate [("role", PyValue.str "system"), ("parts", PyValue.list [])]) = true
    ∧ (∀ (r : String) (ps : List PyValue) (v : PyValue), v ∈ ps → isErr (validatePart v) = true →
        isErr (Message.validate [("role", PyValue.str r), ("parts", PyValue.list ps)]) = true)
    ∧ (∀ (r : String) (ps : List PyValue), r ∈ (["user", "agent"] : List String) →
        (∀ v ∈ ps, isOk (validatePart v) = true) →
        isOk (Message.validate [("role", PyValue.str r), ("parts", PyValue.list ps)]) = true) := by
  refine ⟨?_, rfl, ?_, ?_⟩
  · intro r ps hr
    rw [message_validate_eq]
    have hc : (["user", "agent"].contains r) = false := by simp_all
    rw [hc]
    rfl
  · intro r ps v hmem herr
    rw [message_validate_eq]
    split
    · have : isErr (validateParts ps) = true := by
        rw [validateParts_err_iff]
        exact List.any_eq_true.mpr ⟨v, hmem, herr⟩
      cases hr : validateParts ps with
      | error e => rfl
      | ok l => rw [hr] at this; simp [isErr] at this
    · rfl
  · intro r ps hr hall
    have hc : (["user", "agent"].contains r) = true := by
      rcases List.mem_cons.mp hr with rfl | hr2
      · rfl
      · rcases List.mem_cons.mp hr2 with rfl | hr3
        · rfl
        · cases hr3
    rw [message_validate_eq, hc]
    have herr : isErr (validateParts ps) = false := by
      rw [validateParts_err_iff]
      simp only [List.any_eq_false]
      intro v hv
      have := hall v hv
      rw [isOk_eq_not_isErr] at this
      simpa using this
    cases hps : validateParts ps with
    | error e => rw [hps] at herr; simp [isErr] at herr
    | ok l => simp [Except.map, isOk]

/-- Witness for C1: the spec's failing example, a list with a non-Part
element failing, and two succeeding constructions (one with the empty
parts list). -/
theorem message_construction_validation_witness :
    isErr (Message.validate [("role", PyValue.str "system"), ("parts", PyValue.list [])]) = true
    ∧ isErr (Message.validate [("role", PyValue.str "user"),
        ("parts", PyValue.list [PyValue.int 5])]) = true
    ∧ isOk (Message.validate [("role", PyValue.str "user"),
        ("parts", PyValue.list [PyValue.dict [("text", PyValue.str "hello")]])]) = true
    ∧ isOk (Message.validate [("role", PyValue.str "agent"), ("parts", PyValue.list [])]) = true :=
  ⟨message_construction_validation.1 "system" [] (by decide),
   message_construction_validation.2.2.1 "user" [PyValue.int 5] (PyValue.int 5) (by simp) rfl,
   message_construction_validation.2.2.2 "user" [PyValue.dict [("text", PyValue.str "hello")]]
     (by simp) (by intro v hv; simp only [List.mem_singleton] at hv; subst hv; rfl),
   message_construction_validation.2.2.2 "agent" [] (by simp) (by intro v hv; cases hv)⟩

/-- Witness for C3 (amended): `"5"` coerces to `5`, the digit-free string
`"five"` fails, and a list value fails. -/
theorem taskQueryParams_historyLength_amended_witness :
    TaskQueryParams.validate
      [("id", PyValue.str "t1"), ("historyLength", PyValue.str "5")] =
      .ok ⟨"t1", Option.none, Option.some 5⟩
    ∧ isErr (TaskQueryParams.validate
        [("id", PyValue.str "t1"), ("historyLength", PyValue.str "five")]) = true
    ∧ isErr (TaskQueryParams.validate
        [("id", PyValue.str "t1"), ("historyLength", PyValue.list [])]) = true :=
  ⟨taskQueryParams_historyLength_amended.2.2.2.1 "t1" "5" 5 rfl,
   taskQueryParams_historyLength_amended.2.2.2.2.1 "t1" "five" (by decide),
   taskQueryParams_historyLength_amended.2.2.2.2.2 "t1" (PyValue.list []) rfl rfl rfl⟩

theorem decodeHexChar_hexDigit (n : Nat) (h : n < 16) : decodeHexChar (hexDigit n) = n := by
  interval_cases n <;> rfl

theorem decodeHex_append_single (cs : List Char) (c : Char) :
    decodeHex (cs ++ [c]) = decodeHex cs * 16 + decodeHexChar c := by
  induction cs with
  | nil => simp [decodeHex]
  | cons x xs ih =>
      rw [List.cons_append]
      show decodeHexChar x * 16 ^ (xs ++ [c]).length + decodeHex (xs ++ [c]) = _
      rw [ih, List.length_append, List.length_singleton, pow_succ]
      show decodeHexChar x * (16 ^ xs.length * 16) + (decodeHex xs * 16 + decodeHexChar c) =
        (decodeHexChar x * 16 ^ xs.length + decodeHex xs) * 16 + decodeHexChar c
      ring

theorem length_hexNibbles (k : Nat) : ∀ v : Nat, (hexNibbles k v).length = k := by
  induction k with
  | zero => intro v; rfl
  | succ k ih => intro v; simp [hexNibbles, ih]

theorem decodeHex_hexNibbles (k : Nat) : ∀ v : Nat, decodeHex (hexNibbles k v) = v % 16 ^ k := by
  induction k with
  | zero => intro v; simp [hexNibbles, decodeHex, Nat.mod_one]
  | succ k ih =>
      intro v
      rw [hexNibbles, decodeHex_append_single, ih,
        decodeHexChar_hexDigit _ (Nat.mod_lt _ (by norm_num)), pow_succ,
        mul_comm ((16 : Nat) ^ k) 16, Nat.mod_mul]
      ring

/-- Fixed-width hex encoding is injective below `16 ^ width`. -/
theorem hexNibbles_inj (k v1 v2 : Nat) (h1 : v1 < 16 ^ k) (h2 : v2 < 16 ^ k)
    (h : hexNibbles k v1 = hexNibbles k v2) : v1 = v2 := by
  have hd := congrArg decodeHex h
  rwa [decodeHex_hexNibbles, decodeHex_hexNibbles, Nat.mod_eq_of_lt h1, Nat.mod_eq_of_lt h2] at hd

theorem hexDigit_mem_hexChars (n : Nat) : hexDigit n ∈ hexChars := by
  unfold hexDigit
  split <;> simp [hexChars]

theorem mem_hexNibbles (k : Nat) : ∀ v : Nat, ∀ c ∈ hexNibbles k v, c ∈ hexChars := by
  induction k with
  | zero => intro v c hc; simp [hexNibbles] at hc
  | succ k ih =>
      intro v c hc
      rw [hexNibbles] at hc
      rcases List.mem_append.mp hc with h | h
      · exact ih (v / 16) c h
      · rw [List.mem_singleton] at h
        subst h
        exact hexDigit_mem_hexChars _

theorem uuidHex_length (v : Nat) : (uuidHex v).length = 32 := length_hexNibbles 32 v

theorem uuidHex_mem_hexChars (v : Nat) : ∀ c ∈ (uuidHex v).data, c ∈ hexChars :=
  mem_hexNibbles 32 v

theorem uuidHex_inj (v1 v2 : Nat) (h1 : v1 < 2 ^ 128) (h2 : v2 < 2 ^ 128) (hne : v1 ≠ v2) :
    uuidHex v1 ≠ uuidHex v2 := by
  intro h
  have hpow : (2 : Nat) ^ 128 = 16 ^ 32 := by norm_num
  have hdata : hexNibbles 32 v1 = hexNibbles 32 v2 := congrArg String.data h
  exact hne (hexNibbles_inj 32 v1 v2 (by rwa [hpow] at h1) (by rwa [hpow] at h2) hdata)

/-- A successful `TaskSendParams` construction with `sessionId` omitted
carries the hex of the UUID drawn by the default factory. -/
theorem sessionId_of_validate (u : Nat) (f : List (String × PyValue)) (p : TaskSendParams)
    (hs : getField f "sessionId" = Option.none)
    (hv : TaskSendParams.validate u f = Except.ok p) :
    p.sessionId = uuidHex u := by
  unfold TaskSendParams.validate at hv
  rw [hs] at hv
  dsimp only at hv
  cases hid : getField f "id" with
  | none => rw [hid] at hv; simp [exceptBind_err] at hv
  | some v =>
      rw [hid] at hv
      dsimp only at hv
      obtain ⟨i, hi, hv⟩ := bindEq_ok hv
      simp only [exceptBind_ok] at hv
      cases hm : getField f "message" with
      | none => rw [hm] at hv; simp [exceptBind_err] at hv
      | some mv =>
          rw [hm] at hv
          cases mv with
          | dict fs =>
              dsimp only at hv
              obtain ⟨msg, hmsg, hv⟩ := bindEq_ok hv
              cases hhl : getField f "historyLength" with
              | none =>
                  rw [hhl] at hv
                  simp only [exceptBind_ok] at hv
                  cases hmd : getField f "metadata" with
                  | none =>
                      rw [hmd] at hv
                      simp only [exceptBind_ok, Except.ok.injEq] at hv
                      subst hv
                      rfl
                  | some mdv =>
                      rw [hmd] at hv
                      dsimp only at hv
                      obtain ⟨md, hmd2, hv⟩ := bindEq_ok hv
                      simp only [Except.ok.injEq] at hv
                      subst hv
                      rfl
              | some hlv =>
                  rw [hhl] at hv
                  dsimp only at hv
                  obtain ⟨hl, hhl2, hv⟩ := bindEq_ok hv
                  cases hmd : getField f "metadata" with
                  | none =>
                      rw [hmd] at hv
                      simp only [exceptBind_ok, Except.ok.injEq] at hv
                      subst hv
                      rfl
                  | some mdv =>
                      rw [hmd] at hv
                      dsimp only at hv
                      obtain ⟨md, hmd2, hv⟩ := bindEq_ok hv
                      simp only [Except.ok.injEq] at hv
                      subst hv
                      rfl
          | none => dsimp only at hv; simp [exceptBind_err] at hv
          | str s => dsimp only at hv; simp [exceptBind_err] at hv
          | int n => dsimp only at hv; simp [exceptBind_err] at hv
          | datetime t => dsimp only at hv; simp [exceptBind_err] at hv
          | list l => dsimp only at hv; simp [exceptBind_err] at hv

/-- C4: A `TaskSendParams` construction with `sessionId` omitted yields a
32-character hexadecimal `sessionId`, and two such constructions — whose
`uuid4` draws, being 128-bit random values, differ — yield different
`sessionId` values. -/
theorem taskSendParams_sessionId_generated (u1 u2 : Nat) (f1 f2 : List (String × PyValue))
    (p1 p2 : TaskSendParams)
    (hu1 : u1 < 2 ^ 128) (hu2 : u2 < 2 ^ 128) (hne : u1 ≠ u2)
    (hs1 : getField f1 "sessionId" = Option.none) (hs2 : getField f2 "sessionId" = Option.none)
    (hv1 : TaskSendParams.validate u1 f1 = Except.ok p1)
    (hv2 : TaskSendParams.validate u2 f2 = Except.ok p2) :
    p1.sessionId.length = 32 ∧ (∀ c ∈ p1.sessionId.data, c ∈ hexChars)
    ∧ p1.sessionId ≠ p2.sessionId := by
  rw [sessionId_of_validate u1 f1 p1 hs1 hv1, sessionId_of_validate u2 f2 p2 hs2 hv2]
  exact ⟨uuidHex_length u1, uuidHex_mem_hexChars u1, uuidHex_inj u1 u2 hu1 hu2 hne⟩

/-- Witness for C4: two constructions of `TaskSendParams(id="t", message=...)`
without `sessionId`, drawing UUID values 0 and 1. -/
theorem taskSendParams_sessionId_generated_witness :
    (TaskSendParams.mk "t" (uuidHex 0) (Message.mk "user" [])
      Option.none Option.none).sessionId.length = 32
    ∧ (∀ c ∈ (TaskSendParams.mk "t" (uuidHex 0) (Message.mk "user" [])
        Option.none Option.none).sessionId.data, c ∈ hexChars)
    ∧ (TaskSendParams.mk "t" (uuidHex 0) (Message.mk "user" [])
        Option.none Option.none).sessionId ≠
      (TaskSendParams.mk "t" (uuidHex 1) (Message.mk "user" [])
        Option.none Option.none).sessionId :=
  taskSendParams_sessionId_generated 0 1
    [("id", PyValue.str "t"),
     ("message", PyValue.dict [("role", PyValue.str "user"), ("parts", PyValue.list [])])]
    [("id", PyValue.str "t"),
     ("message", PyValue.dict [("role", PyValue.str "user"), ("parts", PyValue.list [])])]
    (TaskSendParams.mk "t" (uuidHex 0) (Message.mk "user" []) Option.none Option.none)
    (TaskSendParams.mk "t" (uuidHex 1) (Message.mk "user" []) Option.none Option.none)
    (by norm_num) (by norm_num) (by norm_num) rfl rfl rfl rfl

theorem validatePart_dump (p : TextPart) (h : p.Valid) : validatePart p.dump = Except.ok p := by
  obtain ⟨ty, tx⟩ := p
  have h2 : ty = "text" := h
  subst h2
  rfl

theorem validateParts_dump (l : List TextPart) (h : ∀ p ∈ l, p.Valid) :
    validateParts (l.map TextPart.dump) = Except.ok l := by
  induction l with
  | nil => rfl
  | cons p rest ih =>
      rw [List.map_cons]
      show (do
        let a ← validatePart p.dump
        let as ← validateParts (rest.map TextPart.dump)
        Except.ok (a :: as)) = Except.ok (p :: rest)
      rw [validatePart_dump p (h p (List.mem_cons_self p rest)), exceptBind_ok,
        ih (fun q hq => h q (List.mem_cons_of_mem p hq)), exceptBind_ok]

theorem message_validate_dump (m : Message) (h : m.Valid) :
    Message.validate [("role", PyValue.str m.role),
      ("parts", PyValue.list (m.parts.map TextPart.dump))] = Except.ok m := by
  obtain ⟨r, parts⟩ := m
  obtain ⟨hr, hp⟩ := h
  rw [message_validate_eq]
  have hc : (["user", "agent"].contains r) = true := by
    rcases hr with h1 | h1 <;> (have h2 : r = _ := h1; subst h2; rfl)
  rw [hc]
  simp only [if_true]
  rw [validateParts_dump parts hp]
  rfl

theorem validateMessages_dump (l : List Message) (h : ∀ m ∈ l, m.Valid) :
    validateMessages (l.map Message.dump) = Except.ok l := by
  induction l with
  | nil => rfl
  | cons m rest ih =>
      rw [List.map_cons]
      show (do
        let a ← Message.validate [("role", PyValue.str m.role),
          ("parts", PyValue.list (m.parts.map TextPart.dump))]
        let as ← validateMessages (rest.map Message.dump)
        Except.ok (a :: as)) = Except.ok (m :: rest)
      rw [message_validate_dump m (h m (List.mem_cons_self m rest)), exceptBind_ok,
        ih (fun q hq => h q (List.mem_cons_of_mem m hq)), exceptBind_ok]

/-- C7: For every valid `Task`, serializing it to its structural field
dictionary and reconstructing a `Task` from it yields the original record,
field for field: same id, same status state and timestamp, same history in
the same order. -/
theorem task_serialization_roundtrip (now : Nat) (t : Task) (h : t.Valid) :
    Task.validate now t.dumpFields = Except.ok t := by
  obtain ⟨i, st, hist⟩ := t
  have key : Task.validate now (Task.dumpFields ⟨i, st, hist⟩) =
      (do
        let hs ← validateMessages (hist.map Message.dump)
        Except.ok (Task.mk i st hs)) := rfl
  rw [key, validateMessages_dump hist (fun m hm => h m hm), exceptBind_ok]

/-- Witness for C7: the spec's example task round-trips unchanged. -/
theorem task_serialization_roundtrip_witness :
    Task.validate 5 (Task.dumpFields (Task.mk "t1" (TaskStatus.mk "submitted" 5)
      [Message.mk "user" [TextPart.mk "text" "hello"]])) =
    Except.ok (Task.mk "t1" (TaskStatus.mk "submitted" 5)
      [Message.mk "user" [TextPart.mk "text" "hello"]]) :=
  task_serialization_roundtrip 5
    (Task.mk "t1" (TaskStatus.mk "submitted" 5) [Message.mk "user" [TextPart.mk "text" "hello"]])
    (by decide)

/-- A successful `TaskStatus` construction with `timestamp` omitted carries
the `datetime.now` reading made during the construction. -/
theorem timestamp_of_validate_default (now : Nat) (f : List (String × PyValue)) (s : TaskStatus)
    (ht : getField f "timestamp" = Option.none)
    (hv : TaskStatus.validate now f = Except.ok s) : s.timestamp = now := by
  unfold TaskStatus.validate at hv
  rw [ht] at hv
  dsimp only at hv
  cases hst : getField f "state" with
  | none => rw [hst] at hv; simp [exceptBind_err] at hv
  | some v =>
      rw [hst] at hv
      dsimp only at hv
      obtain ⟨st, hstv, hv⟩ := bindEq_ok hv
      simp only [exceptBind_ok, Except.ok.injEq] at hv
      subst hv
      rfl

/-- C9: A `TaskStatus` constructed without an explicit timestamp gets a
timestamp inside its own construction window, and two sequential such
constructions (the first returning before the second is entered, on a wall
clock whose reads during a call lie between entry and return) have
non-decreasing timestamps. -/
theorem taskStatus_timestamp_window (w1 w2 : ConstructionWindow)
    (f1 f2 : List (String × PyValue)) (s1 s2 : TaskStatus)
    (hw1 : w1.WellFormed) (hw2 : w2.WellFormed) (hseq : w1.finish ≤ w2.enter)
    (ht1 : getField f1 "timestamp" = Option.none)
    (ht2 : getField f2 "timestamp" = Option.none)
    (hv1 : TaskStatus.validate w1.nowRead f1 = Except.ok s1)
    (hv2 : TaskStatus.validate w2.nowRead f2 = Except.ok s2) :
    (w1.enter ≤ s1.timestamp ∧ s1.timestamp ≤ w1.finish)
    ∧ (w2.enter ≤ s2.timestamp ∧ s2.timestamp ≤ w2.finish)
    ∧ s1.timestamp ≤ s2.timestamp := by
  rw [timestamp_of_validate_default _ _ _ ht1 hv1, timestamp_of_validate_default _ _ _ ht2 hv2]
  exact ⟨⟨hw1.1, hw1.2⟩, ⟨hw2.1, hw2.2⟩, le_trans hw1.2 (le_trans hseq hw2.1)⟩

/-- Witness for C9: two sequential constructions, windows `[0,2]` and
`[3,5]` with clock reads 1 and 4. -/
theorem taskStatus_timestamp_window_witness :
    ((ConstructionWindow.mk 0 1 2).enter ≤ (TaskStatus.mk "submitted" 1).timestamp
      ∧ (TaskStatus.mk "submitted" 1).timestamp ≤ (ConstructionWindow.mk 0 1 2).finish)
    ∧ ((ConstructionWindow.mk 3 4 5).enter ≤ (TaskStatus.mk "working" 4).timestamp
      ∧ (TaskStatus.mk "working" 4).timestamp ≤ (ConstructionWindow.mk 3 4 5).finish)
    ∧ (TaskStatus.mk "submitted" 1).timestamp ≤ (TaskStatus.mk "working" 4).timestamp :=
  taskStatus_timestamp_window (ConstructionWindow.mk 0 1 2) (ConstructionWindow.mk 3 4 5)
    [("state", PyValue.str "submitted")] [("state", PyValue.str "working")]
    (TaskStatus.mk "submitted" 1) (TaskStatus.mk "working" 4)
    ⟨by decide, by decide⟩ ⟨by decide, by decide⟩ (by decide) rfl rfl rfl rfl

end A2A
